import Mathlib

/-!
Shallow embedding of `gooblox_api.py` (the GooBlox search API module).

The Python module exposes a single Flask endpoint `search` that

  1. validates the `q` parameter,
  2. optionally spell-corrects the query token by token,
  3. validates `max_results` and `safesearch`, resolves `region`,
  4. calls the external DuckDuckGo search capability,
  5. post-filters the results (the module calls `_filter_results_by_keywords`
     there, a name that is never defined in the module),
  6. assembles a JSON response and opportunistically extracts an answer.

Pure Python string operations are embedded as computable Lean functions over
`String` / `List Char`; the external capabilities (spell-check dictionary,
search client, wikipedia client) become explicit function-valued parameters
in an `Env` record, and exceptions become an explicit `PyExc` type.
-/

namespace GooBlox

/-- The apostrophe character, written via its code point. -/
def quoteCh : Char := Char.ofNat 39

/-- ASCII whitespace characters recognised by Python `str.strip` / `\s`. -/
def isSpaceCh (c : Char) : Bool :=
  c == ' ' || c == Char.ofNat 9 || c == Char.ofNat 10 ||
  c == Char.ofNat 13 || c == Char.ofNat 11 || c == Char.ofNat 12

/-- ASCII letter test, matching the regex class `[A-Za-z]`. -/
def isLetterCh (c : Char) : Bool :=
  (65 ≤ c.toNat && c.toNat ≤ 90) || (97 ≤ c.toNat && c.toNat ≤ 122)

/-- ASCII digit test, matching the regex class `\d` on ASCII input. -/
def isDigitCh (c : Char) : Bool :=
  48 ≤ c.toNat && c.toNat ≤ 57

/-- Regex word character (`\w`): letter, digit or underscore. -/
def isWordCh (c : Char) : Bool :=
  isLetterCh c || isDigitCh c || c == Char.ofNat 95

/-- ASCII lower-casing of one character, as Python `str.lower` acts on ASCII. -/
def asciiLowerChar (c : Char) : Char :=
  if 65 ≤ c.toNat && c.toNat ≤ 90 then Char.ofNat (c.toNat + 32) else c

/-- ASCII upper-casing of one character, as Python `str.upper` acts on ASCII. -/
def asciiUpperChar (c : Char) : Char :=
  if 97 ≤ c.toNat && c.toNat ≤ 122 then Char.ofNat (c.toNat - 32) else c

/-- Python `str.lower` on the ASCII fragment. -/
def pyLower (s : String) : String := String.mk (s.data.map asciiLowerChar)

/-- Python `str.strip`: drop whitespace from both ends. -/
def pyStrip (s : String) : String :=
  String.mk (((s.data.dropWhile isSpaceCh).reverse.dropWhile isSpaceCh).reverse)

/-- Substring test: Python `sub in hay`. -/
def containsSub (hay sub : String) : Bool :=
  hay.data.tails.any (fun t => sub.data.isPrefixOf t)

/-- Prefix test on strings via their character lists (Python `str.startswith`). -/
def strStartsWith (s p : String) : Bool := p.data.isPrefixOf s.data

/-- Drop the first `n` characters (Python slicing `s[n:]`). -/
def strDropChars (s : String) (n : Nat) : String := String.mk (s.data.drop n)

/-- Python `" ".join`. -/
def joinWithSpace : List String → String
  | [] => ""
  | [s] => s
  | s :: rest => s ++ " " ++ joinWithSpace rest

/-- Python `str.split()` with no separator: split on whitespace runs,
dropping empty pieces. Fuel bounds the recursion depth; every recursive
call strictly shortens the list, so `length + 1` fuel is always enough. -/
def splitWsGo : Nat → List Char → List String
  | 0, _ => []
  | _ + 1, [] => []
  | fuel + 1, c :: cs =>
    if isSpaceCh c then splitWsGo fuel cs
    else
      String.mk (c :: cs.takeWhile (fun d => !isSpaceCh d)) ::
        splitWsGo fuel (cs.dropWhile (fun d => !isSpaceCh d))

/-- Python `query.split()` (after lowering, only the token count is used). -/
def pySplitWs (s : String) : List String := splitWsGo (s.data.length + 1) s.data

/-- Value of a nonempty all-digit run, used by the embedding of Python `int`. -/
def digitsVal (l : List Char) : Option Nat :=
  if !l.isEmpty && l.all isDigitCh then
    some (l.foldl (fun a c => a * 10 + (c.toNat - 48)) 0)
  else none

/-- Python `int(s)` on a string: strip whitespace, optional sign, digits;
`none` models the `ValueError` raised on non-numeric input. -/
def pyInt (s : String) : Option Int :=
  let t := ((s.data.dropWhile isSpaceCh).reverse.dropWhile isSpaceCh).reverse
  match t with
  | [] => none
  | c :: rest =>
    if c == '-' then (digitsVal rest).map (fun n => -(n : Int))
    else if c == '+' then (digitsVal rest).map (fun n => (n : Int))
    else (digitsVal t).map (fun n => (n : Int))

/-- Embedding of `re.findall(r"[A-Za-z]+(?:'[A-Za-z]+)?|\d+", s)`: scan left
to right, emitting maximal letter runs (optionally continued by an apostrophe
and a further letter run) and maximal digit runs, skipping everything else.
Fuel bounds the recursion depth; every recursive call strictly shortens the
list, so `length + 1` fuel is always enough. -/
def findTokensGo : Nat → List Char → List (List Char)
  | 0, _ => []
  | _ + 1, [] => []
  | fuel + 1, c :: cs =>
    if isLetterCh c then
      let run := c :: cs.takeWhile isLetterCh
      match cs.dropWhile isLetterCh with
      | a :: d :: rest2 =>
        if a == quoteCh && isLetterCh d then
          (run ++ [a, d] ++ rest2.takeWhile isLetterCh) ::
            findTokensGo fuel (rest2.dropWhile isLetterCh)
        else run :: findTokensGo fuel (a :: d :: rest2)
      | r => run :: findTokensGo fuel r
    else if isDigitCh c then
      (c :: cs.takeWhile isDigitCh) :: findTokensGo fuel (cs.dropWhile isDigitCh)
    else findTokensGo fuel cs

/-- Tokens of the query per the module regex, as strings. -/
def pyFindTokens (s : String) : List String :=
  (findTokensGo (s.data.length + 1) s.data).map String.mk

/-- Python `str.isalpha` on ASCII input: nonempty and all letters. -/
def pyIsAlpha (s : String) : Bool := !s.data.isEmpty && s.data.all isLetterCh

/-- Test `token[0].isupper()` for an ASCII token. -/
def firstUpper (s : String) : Bool :=
  match s.data with
  | [] => false
  | c :: _ => 65 ≤ c.toNat && c.toNat ≤ 90

/-- Worker for `pyTitle`: the boolean records whether the previous character
was cased (a letter). -/
def pyTitleGo : List Char → Bool → List Char
  | [], _ => []
  | c :: cs, prev =>
    if isLetterCh c then
      (if prev then asciiLowerChar c else asciiUpperChar c) :: pyTitleGo cs true
    else c :: pyTitleGo cs false

/-- Python `str.title` on ASCII input: capitalise the first letter of each
letter run, lower-case the rest. -/
def pyTitle (s : String) : String := String.mk (pyTitleGo s.data false)

/-- Worker for `replaceAll`, with fuel bounded by the string length. -/
def replaceAllGo : Nat → List Char → List Char → List Char → List Char
  | 0, _, _, l => l
  | _ + 1, _, _, [] => []
  | fuel + 1, pat, rep, c :: cs =>
    if pat.isPrefixOf (c :: cs) then
      rep ++ replaceAllGo fuel pat rep ((c :: cs).drop pat.length)
    else c :: replaceAllGo fuel pat rep cs

/-- Python `s.replace(pat, rep)`: replace all non-overlapping occurrences,
scanning left to right (for nonempty `pat`). -/
def replaceAll (s pat rep : String) : String :=
  if pat.data.isEmpty then s
  else String.mk (replaceAllGo (s.data.length + 1) pat.data rep.data s.data)

/-- First `some` produced by `f` over a list, else `none`. -/
def firstSome {α β : Type} (f : α → Option β) : List α → Option β
  | [] => none
  | a :: r =>
    match f a with
    | some b => some b
    | none => firstSome f r

/-- Attempt to match `[\d,]+(?:\.\d+)?\s*(?:million|billion)` (ignore-case) at
the head of `l`; on success return the matched text and the remainder. -/
def tryNumMatch (l : List Char) : Option (List Char × List Char) :=
  let digits := l.takeWhile (fun c => isDigitCh c || c == ',')
  if digits.isEmpty then none
  else
    let r1 := l.dropWhile (fun c => isDigitCh c || c == ',')
    let frac :=
      match r1 with
      | c :: rest =>
        if c == '.' && !(rest.takeWhile isDigitCh).isEmpty then
          (c :: rest.takeWhile isDigitCh, rest.dropWhile isDigitCh)
        else ([], r1)
      | [] => ([], r1)
    let ws := frac.2.takeWhile isSpaceCh
    let r3 := frac.2.dropWhile isSpaceCh
    let low := r3.map asciiLowerChar
    if ("million".data).isPrefixOf low || ("billion".data).isPrefixOf low then
      some (digits ++ frac.1 ++ ws ++ r3.take 7, r3.drop 7)
    else none

/-- Worker for `findNumMatches`: scan with a word-boundary check (`\b`),
carrying the previous character; fuel bounds the recursion depth (each
recursive call strictly shortens the list, so `length + 1` fuel suffices). -/
def findNumGo : Nat → List Char → Option Char → List (List Char)
  | 0, _, _ => []
  | _ + 1, [], _ => []
  | fuel + 1, c :: cs, prev =>
    let boundaryOk :=
      if isWordCh c then
        match prev with
        | none => true
        | some p => !isWordCh p
      else
        match prev with
        | none => false
        | some p => isWordCh p
    if boundaryOk then
      match tryNumMatch (c :: cs) with
      | some (m, rest) => m :: findNumGo fuel rest m.getLast?
      | none => findNumGo fuel cs (some c)
    else findNumGo fuel cs (some c)

/-- All matches of the population number pattern, in order (embedding of
`number_pattern.findall`). -/
def findNumMatches (l : List Char) : List (List Char) :=
  findNumGo (l.length + 1) l none

/-- A search result as returned by the DDGS capability: the dict with keys
`title`, `href`, `body`. -/
structure SearchResult where
  title : String
  href : String
  body : String
deriving DecidableEq, Repr

/-- The query-string parameters of one GET /search request. -/
structure RequestArgs where
  q : Option String
  max_results : Option String
  region : Option String
  safesearch : Option String
  timelimit : Option String
deriving DecidableEq, Repr

/-- Python exceptions that the embedded handler can raise unhandled. -/
inductive PyExc where
  | nameError (n : String)
  | attributeError (msg : String)
  | typeError (msg : String)
deriving DecidableEq, Repr

/-- The JSON response assembled by the handler on the 200 path. -/
structure SearchResponse where
  query : String
  count : Nat
  results : List SearchResult
  spellchecked_query : Option String
  message : Option String
  answer : Option String
deriving DecidableEq, Repr

/-- Observable outcome of one handler invocation: a JSON error response with
a status code, a 200 JSON response, or an unhandled Python exception. -/
inductive HandlerOutput where
  | errorResp (status : Nat) (error : String)
  | okResp (status : Nat) (resp : SearchResponse)
  | raised (e : PyExc)
deriving DecidableEq, Repr

/-- Arguments of one call to `search_engine.text`. -/
structure SearchCallArgs where
  keywords : String
  region : String
  safesearch : String
  timelimit : Option String
  max_results : Int
deriving DecidableEq, Repr

/-- The wikipedia capability: `wikipedia.search` and `wikipedia.summary`
(the latter takes the sentence count); `Except.error` models a raised
exception, which the module always swallows. -/
structure WikiCap where
  search : String → Except String (List String)
  summary : String → Nat → Except String String

/-- The process-wide capability handles: the optional spell-check dictionary
(`_spellchecker.correction`, which may yield no suggestion), the search
client, and the optional wikipedia module. -/
structure Env where
  spell : Option (String → Option String)
  searchCap : SearchCallArgs → Except String (List SearchResult)
  wiki : Option WikiCap

/-- Result of a run: the handler outcome plus the list of calls made to the
search capability (for stating never-invoked / no-retry properties). -/
structure RunResult where
  output : HandlerOutput
  capCalls : List SearchCallArgs
deriving Repr

/-- Message of the AttributeError raised by `None.title()`. -/
def titleErrMsg : String := "NoneType object has no attribute title"

/-- Message of the TypeError raised by joining a None token. -/
def joinErrMsg : String := "sequence item: expected str instance, NoneType found"

/-- The 400 message for a missing `q` parameter. -/
def eMissingQ : String :=
  "Missing query parameter " ++ String.mk [quoteCh, 'q', quoteCh]

/-- The 400 message for an invalid `max_results` parameter. -/
def eMaxResults : String := "max_results must be a positive integer"

/-- The 400 message for an invalid `safesearch` parameter. -/
def eSafesearch : String :=
  "safesearch must be " ++ String.mk [quoteCh] ++ "on" ++ String.mk [quoteCh] ++
  ", " ++ String.mk [quoteCh] ++ "moderate" ++ String.mk [quoteCh] ++
  ", or " ++ String.mk [quoteCh] ++ "off" ++ String.mk [quoteCh]

/-- The message set when the filtered result list is empty. -/
def msgNoResults : String := "No results found for the given query."

/-- The token-correction loop of the handler (lines 150-160): alphabetic
tokens are looked up lower-cased; a `None` suggestion for a capitalised token
raises AttributeError at `corrected.title()`, a `None` suggestion for a
lower-case token is appended as-is (to blow up later in the join). -/
def correctTokens (corr : String → Option String) : List String → Except PyExc (List (Option String))
  | [] => .ok []
  | tok :: rest =>
    if pyIsAlpha tok then
      if firstUpper tok then
        match corr (pyLower tok) with
        | none => .error (.attributeError titleErrMsg)
        | some c =>
          match correctTokens corr rest with
          | .error e => .error e
          | .ok r => .ok (some (pyTitle c) :: r)
      else
        match correctTokens corr rest with
        | .error e => .error e
        | .ok r => .ok (corr (pyLower tok) :: r)
    else
      match correctTokens corr rest with
      | .error e => .error e
      | .ok r => .ok (some tok :: r)

/-- Embedding of `" ".join(corrected_tokens)`: raises TypeError when any
entry is `None`. -/
def pyJoin (l : List (Option String)) : Except PyExc String :=
  if l.all Option.isSome then .ok (joinWithSpace (l.map (fun o => o.getD "")))
  else .error (.typeError joinErrMsg)

/-- The spelling-correction stage (lines 144-167): a no-op when the
dictionary is unavailable or the query has a non-ASCII character; otherwise
tokenize, correct, rejoin, and adopt the corrected string as the effective
query exactly when it differs case-insensitively from the original. Returns
(effective query, spellchecked_used). -/
def normalizeQuery (spell : Option (String → Option String)) (orig : String) :
    Except PyExc (String × Bool) :=
  match spell with
  | none => .ok (orig, false)
  | some corr =>
    if orig.data.all (fun c => c.toNat < 128) then
      match correctTokens corr (pyFindTokens orig) with
      | .error e => .error e
      | .ok cts =>
        match pyJoin cts with
        | .error e => .error e
        | .ok corrected =>
          if pyLower corrected == pyLower orig then .ok (orig, false)
          else .ok (corrected, true)
    else .ok (orig, false)

/-- Parsing of `max_results` (line 172): default 5 when absent, otherwise
Python `int` on the raw string; `none` models the ValueError path. -/
def parseMaxResults : Option String → Option Int
  | none => some 5
  | some s => pyInt s

/-- The population heuristic override (lines 183-184): raise `max_results`
to at least 20 when the effective query mentions "population". -/
def resolveMaxResults (q : String) (m : Int) : Int :=
  if containsSub (pyLower q) "population" then max m 20 else m

/-- Region resolution (lines 187-191): an explicitly supplied nonempty value
is used verbatim, otherwise infer from the effective query's characters. -/
def resolveRegion (argRegion : Option String) (effQ : String) : String :=
  if argRegion.getD "" = "" then
    if effQ.data.any (fun c => 127 < c.toNat) then "wt-wt" else "us-en"
  else argRegion.getD ""

/-- The lower-cased `safesearch` value (line 193). -/
def ssOf (args : RequestArgs) : String := pyLower (args.safesearch.getD "moderate")

/-- Validity of `safesearch` (line 197). -/
def ssValid (s : String) : Bool := s == "on" || s == "moderate" || s == "off"

/-- The arguments the handler passes to `search_engine.text`. -/
def callArgsOf (args : RequestArgs) (effQ : String) (m0 : Int) : SearchCallArgs :=
  ⟨effQ, resolveRegion args.region effQ, ssOf args, args.timelimit,
    resolveMaxResults effQ m0⟩

/-- Embedding of matching `\s+(.+)` against `rest` with greedy semantics:
require leading whitespace, the captured topic is everything after the
maximal whitespace run; when the remainder is all whitespace, backtracking
leaves the last whitespace character as the topic. -/
def matchWsTopic : List Char → Option String
  | [] => none
  | c :: cs =>
    if isSpaceCh c then
      let t := (c :: cs).dropWhile isSpaceCh
      if !t.isEmpty then some (String.mk t)
      else
        match cs with
        | [] => none
        | _ :: _ => some (String.mk [cs.getLastD c])
    else none

/-- The first definition pattern, `^(what is|who is|define|meaning of)\s+(.+)`
(line 239): ordered alternation with full-match backtracking. -/
def matchPattern1 (lq : String) : Option String :=
  firstSome
    (fun p =>
      if strStartsWith lq p then matchWsTopic (lq.data.drop p.data.length)
      else none)
    ["what is", "who is", "define", "meaning of"]

/-- The second definition pattern, `^(.+)\s+definition$` (line 240): the
string must end in "definition" immediately preceded by one whitespace
character (greedy `(.+)` absorbs any further whitespace), with a nonempty
topic before it. -/
def matchPattern2 (lq : List Char) : Option String :=
  if ("definition".data).isSuffixOf lq then
    let pre := lq.take (lq.length - 10)
    match pre.reverse with
    | [] => none
    | w :: restRev =>
      if isSpaceCh w && !restRev.isEmpty then some (String.mk restRev.reverse)
      else none
  else none

/-- The pattern cascade of lines 238-249: first matching pattern wins, the
topic is the last captured group. -/
def definitionTopic (lq : String) : Option String :=
  match matchPattern1 lq with
  | some t => some t
  | none => matchPattern2 lq.data

/-- Embedding of `re.sub(r"( exist| are there| are)", "", subject)`: remove
all non-overlapping occurrences, trying the alternatives in order at each
position. Fuel bounds the recursion depth; every recursive call strictly
shortens the list, so `length + 1` fuel is always enough. -/
def stripTailGo : Nat → List Char → List Char
  | 0, l => l
  | _ + 1, [] => []
  | fuel + 1, c :: cs =>
    if (" exist".data).isPrefixOf (c :: cs) then stripTailGo fuel ((c :: cs).drop 6)
    else if (" are there".data).isPrefixOf (c :: cs) then stripTailGo fuel ((c :: cs).drop 10)
    else if (" are".data).isPrefixOf (c :: cs) then stripTailGo fuel ((c :: cs).drop 4)
    else c :: stripTailGo fuel cs

/-- All occurrences of the trailing words removed, as `re.sub` does. -/
def stripTailWords (l : List Char) : List Char := stripTailGo (l.length + 1) l

/-- Subject extraction for "how many" / "population of" queries
(lines 256-263): strip leading phrases in order, remove trailing words,
strip, and append " population". -/
def popSubjectTopic (lq : String) : String :=
  let subject :=
    ["how many", "population of", "number of", "count of"].foldl
      (fun acc p =>
        if strStartsWith acc p then pyStrip (strDropChars acc p.data.length)
        else acc)
      lq
  pyStrip (String.mk (stripTailWords subject.data)) ++ " population"

/-- The wikipedia block of lines 232-276: classify the lower-cased stripped
effective query, search wikipedia for the topic, fetch a one-sentence
summary; every failure is swallowed, and an answer that strips to the empty
string is discarded by the `if answer:` truthiness test. -/
def wikiAnswer (wiki : Option WikiCap) (q : String) : Option String :=
  match wiki with
  | none => none
  | some w =>
    let lq := pyStrip (pyLower q)
    let topic :=
      match definitionTopic lq with
      | some t => some t
      | none =>
        if strStartsWith lq "how many" || strStartsWith lq "population of" then
          some (popSubjectTopic lq)
        else none
    match topic with
    | none => none
    | some t =>
      match w.search t with
      | .error _ => none
      | .ok [] => none
      | .ok (pt :: _) =>
        match w.summary pt 1 with
        | .error _ => none
        | .ok s => if pyStrip s == "" then none else some (pyStrip s)

/-- Embedding of `_extract_population_from_snippets` (lines 40-68): scan the
results in order; for the first whose body+title mentions the subject
(case-insensitively) and contains a number followed by million/billion,
format the estimate from the last such match. -/
def extractPopulationFromSnippets (subject : String) (results : List SearchResult) :
    Option String :=
  firstSome
    (fun r =>
      let snippet := r.body ++ " " ++ r.title
      if containsSub (pyLower snippet) (pyLower subject) then
        match (findNumMatches snippet.data).getLast? with
        | some m =>
          some ("The estimated " ++ subject ++ " population is around " ++
            pyStrip (String.mk m) ++ ".")
        | none => none
      else none)
    results

/-- The fallback population heuristic of lines 287-302: normalise common
misspellings of "population", require the substring "population" in the
query, strip a leading population phrase, and extract numbers from the
filtered snippets. -/
def fixMisspellings (s : String) : String :=
  ["poplutation", "popluation", "popultation", "populaton"].foldl
    (fun acc m => replaceAll acc m "population") s

/-- The population-heuristic answer (lines 287-302). -/
def popAnswerOf (q : String) (results : List SearchResult) : Option String :=
  let lqc := fixMisspellings (pyStrip (pyLower q))
  if containsSub lqc "population" then
    let subject :=
      ["population of", "population for", "population in", "population"].foldl
        (fun acc p =>
          if strStartsWith acc p then pyStrip (strDropChars acc p.data.length)
          else acc)
        lqc
    if subject == "" then none else extractPopulationFromSnippets subject results
  else none

/-- The final generic fallback of lines 306-318: for effective queries of
one to three whitespace-separated tokens, try a direct wikipedia search and
one-sentence summary, swallowing failures. -/
def genericAnswer (wiki : Option WikiCap) (q : String) : Option String :=
  match wiki with
  | none => none
  | some w =>
    let n := (pySplitWs (pyLower q)).length
    if 1 ≤ n && n ≤ 3 then
      match w.search q with
      | .error _ => none
      | .ok [] => none
      | .ok (pt :: _) =>
        match w.summary pt 1 with
        | .error _ => none
        | .ok s => if s == "" then none else some (pyStrip s)
    else none

/-- The whole answer-extraction cascade of lines 229-318, in the order the
module evaluates it: wikipedia intent patterns, then the population snippet
heuristic, then the generic short-query fallback. -/
def extractAnswer (wiki : Option WikiCap) (q : String) (results : List SearchResult) :
    Option String :=
  match wikiAnswer wiki q with
  | some a => some a
  | none =>
    match popAnswerOf q results with
    | some a => some a
    | none => genericAnswer wiki q

/-- The result-filtering step abstracted: the module calls
`_filter_results_by_keywords(query, results)` here. -/
def FilterStep : Type :=
  String → List SearchResult → Except PyExc (List SearchResult)

/-- Lexical overlap of a result with the query: some whitespace token of the
lower-cased query occurs as a substring of the combined lower-cased
title+body. -/
def lexOverlap (q : String) (r : SearchResult) : Bool :=
  (pySplitWs (pyLower q)).any
    (fun t => containsSub (pyLower (r.title ++ " " ++ r.body)) t)

/-- Modelled from the spec: the module never defines the function
`_filter_results_by_keywords` that line 213 calls, so its body is missing
from the source; per the spec (section 4.4, Result Filter) it keeps each
result whose combined title+body has lexical overlap with the effective
query, removes only results with no lexical relationship to the query, and
preserves the provider order. -/
def filterResultsByKeywords (q : String) (results : List SearchResult) :
    List SearchResult :=
  results.filter (lexOverlap q)

/-- The filter step as the spec models it: total, never raises. -/
def specFilterStep : FilterStep :=
  fun q results => .ok (filterResultsByKeywords q results)

/-- The filter step as the module actually behaves: the name
`_filter_results_by_keywords` is undefined at line 213, so evaluating the
call raises `NameError`. -/
def missingFilterStep : FilterStep :=
  fun _ _ => .error (.nameError "_filter_results_by_keywords")

/-- Everything after parameter validation (lines 200-320): call the search
capability once, run the filter step, assemble the response; `ca.keywords`
is the effective query. -/
def afterValidation (filt : FilterStep) (env : Env) (q0 : String) (used : Bool)
    (ca : SearchCallArgs) : RunResult :=
  match env.searchCap ca with
  | .error ex => ⟨.errorResp 500 ("Search failed: " ++ ex), [ca]⟩
  | .ok rs =>
    match filt ca.keywords rs with
    | .error e => ⟨.raised e, [ca]⟩
    | .ok fres =>
      if fres.isEmpty then
        ⟨.okResp 200
          ⟨q0, fres.length, fres, (if used then some ca.keywords else none),
            some msgNoResults, none⟩, [ca]⟩
      else
        ⟨.okResp 200
          ⟨q0, fres.length, fres, (if used then some ca.keywords else none),
            none, extractAnswer env.wiki ca.keywords fres⟩, [ca]⟩

/-- The full `search` handler (lines 101-320), parameterised by the filter
step: `q` check, spelling correction, `max_results` and `safesearch`
validation, then the post-validation pipeline. -/
def searchCore (filt : FilterStep) (env : Env) (args : RequestArgs) : RunResult :=
  if args.q.getD "" = "" then ⟨.errorResp 400 eMissingQ, []⟩
  else
    match normalizeQuery env.spell (args.q.getD "") with
    | .error e => ⟨.raised e, []⟩
    | .ok (effQ, used) =>
      match parseMaxResults args.max_results with
      | none => ⟨.errorResp 400 eMaxResults, []⟩
      | some m0 =>
        if m0 ≤ 0 then ⟨.errorResp 400 eMaxResults, []⟩
        else if ssValid (ssOf args) then
          afterValidation filt env (args.q.getD "") used (callArgsOf args effQ m0)
        else ⟨.errorResp 400 eSafesearch, []⟩

/-- The handler as the module actually is (undefined filter name). -/
def searchActual (env : Env) (args : RequestArgs) : RunResult :=
  searchCore missingFilterStep env args

/-- The handler with the spec-modelled filter step substituted for the
missing `_filter_results_by_keywords`. -/
def searchModelled (env : Env) (args : RequestArgs) : RunResult :=
  searchCore specFilterStep env args

/-- Status code of a handler outcome (`none` when an exception escaped). -/
def statusOf : HandlerOutput → Option Nat
  | .errorResp st _ => some st
  | .okResp st _ => some st
  | .raised _ => none

/-- The answer field of a 200 response, if one was produced. -/
def answerOfRun (r : RunResult) : Option String :=
  match r.output with
  | .okResp _ resp => resp.answer
  | _ => none

/-! Concrete fixtures used by witnesses and counterexamples. -/

/-- A dictionary that yields no suggestion for any word (the pyspellchecker
`correction` may return `None` for unknown words). -/
def corrNone : String → Option String := fun _ => none

/-- The dictionary of the spelling-correction scenario: "pyhton" corrects to
"python", every other word is returned unchanged. -/
def corrC8 : String → Option String :=
  fun w => if w == "pyhton" then some "python" else some w

/-- The mocked tiger search result of the population-heuristic scenario. -/
def resTiger : SearchResult :=
  ⟨"Tiger - Wikipedia", "https://en.wikipedia.org/wiki/Tiger",
    "approximately 5,574 tigers remain in the wild"⟩

/-- An encyclopedia capability whose page search always yields no page. -/
def wikiNoPage : WikiCap := ⟨fun _ => .ok [], fun _ _ => .ok ""⟩

/-- Environment of the population-heuristic scenario. -/
def envC3 : Env := ⟨none, fun _ => .ok [resTiger], some wikiNoPage⟩

/-- Request of the population-heuristic scenario. -/
def argsC3 : RequestArgs := ⟨some "how many tigers are there", none, none, none, none⟩

/-- The response the modelled handler produces in the population scenario. -/
def respC3 : SearchResponse :=
  ⟨"how many tigers are there", 1, [resTiger], none, none, none⟩

/-- Environment with a none-returning dictionary and a benign search
capability. -/
def envNoSuggestion : Env := ⟨some corrNone, fun _ => .ok [], none⟩

/-- Request with non-numeric `max_results` used against the validation
claim. -/
def argsC5 : RequestArgs := ⟨some "cats", some "abc", none, none, none⟩

/-- Environment whose search capability always raises. -/
def envFailCap : Env := ⟨none, fun _ => .error "boom", none⟩

/-- Environment whose search capability always returns the empty list. -/
def envEmptyCap : Env := ⟨none, fun _ => .ok [], none⟩

/-- A minimal valid request. -/
def argsCats : RequestArgs := ⟨some "cats", none, none, none, none⟩

/-- A result lexically related to the query "cats". -/
def resCats : SearchResult := ⟨"All about cats", "https://cats.example", "cat pictures"⟩

/-- A result with no lexical relationship to the query "cats". -/
def resDogs : SearchResult := ⟨"Dogs daily", "https://dogs.example", "dog pictures"⟩

/-- Environment returning one related and one unrelated result. -/
def envTwoRes : Env := ⟨none, fun _ => .ok [resCats, resDogs], none⟩

/-- The call the handler makes for `argsCats`. -/
def caCats : SearchCallArgs := ⟨"cats", "us-en", "moderate", none, 5⟩

/-- The response the modelled handler produces for `argsCats` over
`envTwoRes`. -/
def respCats : SearchResponse := ⟨"cats", 1, [resCats], none, none, none⟩

/-- Environment of the spelling-correction scenario. -/
def envC8 : Env := ⟨some corrC8, fun _ => .ok [], none⟩

/-- Request of the spelling-correction scenario. -/
def argsC8 : RequestArgs := ⟨some "pyhton programming", none, none, none, none⟩

/-- The response the modelled handler produces in the spelling scenario. -/
def respC8 : SearchResponse :=
  ⟨"pyhton programming", 0, [], some "python programming", some msgNoResults, none⟩

/-! Helper lemmas characterising the embedded handler. -/

/-- The post-validation pipeline calls the search capability exactly once,
whatever happens afterwards. -/
theorem afterValidation_calls (filt : FilterStep) (env : Env) (q0 : String)
    (used : Bool) (ca : SearchCallArgs) :
    (afterValidation filt env q0 used ca).capCalls = [ca] := by
  unfold afterValidation
  split
  · rfl
  · split
    · rfl
    · split <;> rfl

/-- Characterisation of a 200 response of the post-validation pipeline: the
capability returned, the filter step returned, and the response fields are
exactly the assembled ones. -/
theorem afterValidation_ok {filt : FilterStep} {env : Env} {q0 : String}
    {used : Bool} {ca : SearchCallArgs} {st : Nat} {resp : SearchResponse}
    (h : (afterValidation filt env q0 used ca).output = .okResp st resp) :
    st = 200 ∧ ∃ rs fres, env.searchCap ca = .ok rs ∧
      filt ca.keywords rs = .ok fres ∧
      resp = ⟨q0, fres.length, fres, (if used then some ca.keywords else none),
        (if fres.isEmpty then some msgNoResults else none),
        (if fres.isEmpty then none else extractAnswer env.wiki ca.keywords fres)⟩ := by
  unfold afterValidation at h
  split at h
  · simp at h
  next rs hrs =>
    split at h
    · simp at h
    next fres hf =>
      split at h
      next he =>
        simp only [HandlerOutput.okResp.injEq] at h
        exact ⟨h.1.symm, rs, fres, hrs, hf, by rw [← h.2, if_pos he, if_pos he]⟩
      next he =>
        simp only [HandlerOutput.okResp.injEq] at h
        exact ⟨h.1.symm, rs, fres, hrs, hf, by rw [← h.2, if_neg he, if_neg he]⟩

/-- Characterisation of a 200 response of the whole handler: every
validation stage passed and the run equals the post-validation pipeline on
the resolved call arguments. -/
theorem searchCore_ok_char {filt : FilterStep} {env : Env} {args : RequestArgs}
    {st : Nat} {resp : SearchResponse}
    (h : (searchCore filt env args).output = .okResp st resp) :
    ∃ effQ used m0,
      args.q.getD "" ≠ "" ∧
      normalizeQuery env.spell (args.q.getD "") = .ok (effQ, used) ∧
      parseMaxResults args.max_results = some m0 ∧ ¬ m0 ≤ 0 ∧
      ssValid (ssOf args) = true ∧
      searchCore filt env args =
        afterValidation filt env (args.q.getD "") used (callArgsOf args effQ m0) := by
  unfold searchCore at h
  split at h
  · simp at h
  next hq =>
    split at h
    · simp at h
    next effQ used hn =>
      split at h
      · simp at h
      next m0 hm =>
        split at h
        · simp at h
        next hm0 =>
          split at h
          next hss =>
            refine ⟨effQ, used, m0, hq, hn, hm, hm0, hss, ?_⟩
            unfold searchCore
            simp [hq, hn, hm, hm0, hss]
          next hss => simp at h

/-- When every validation stage passes, the handler run is the
post-validation pipeline on the resolved call arguments. -/
theorem searchCore_valid_eq {filt : FilterStep} {env : Env} {args : RequestArgs}
    {effQ : String} {used : Bool} {m0 : Int}
    (hq : args.q.getD "" ≠ "")
    (hn : normalizeQuery env.spell (args.q.getD "") = .ok (effQ, used))
    (hm : parseMaxResults args.max_results = some m0)
    (hm0 : ¬ m0 ≤ 0)
    (hss : ssValid (ssOf args) = true) :
    searchCore filt env args =
      afterValidation filt env (args.q.getD "") used (callArgsOf args effQ m0) := by
  unfold searchCore
  simp [hq, hn, hm, hm0, hss]

/-- Every call the handler makes to the search capability carries the
resolved parameters: in particular its `max_results` is the population
override applied to the parsed user value. -/
theorem searchCore_calls_char {filt : FilterStep} {env : Env} {args : RequestArgs}
    {ca : SearchCallArgs} (h : ca ∈ (searchCore filt env args).capCalls) :
    ∃ effQ used m0,
      normalizeQuery env.spell (args.q.getD "") = .ok (effQ, used) ∧
      parseMaxResults args.max_results = some m0 ∧ ¬ m0 ≤ 0 ∧
      ca = callArgsOf args effQ m0 := by
  unfold searchCore at h
  split at h
  · simp at h
  next hq =>
    split at h
    · simp at h
    next effQ used hn =>
      split at h
      · simp at h
      next m0 hm =>
        split at h
        · simp at h
        next hm0 =>
          split at h
          next hss =>
            rw [afterValidation_calls] at h
            simp only [List.mem_singleton] at h
            exact ⟨effQ, used, m0, hn, hm, hm0, h⟩
          next hss => simp at h

/-- The only exception the token-correction loop itself raises is the
AttributeError from `None.title()`. -/
theorem correctTokens_error_shape {corr : String → Option String} :
    ∀ {toks : List String} {e : PyExc},
      correctTokens corr toks = .error e → e = .attributeError titleErrMsg := by
  intro toks
  induction toks with
  | nil => intro e h; simp [correctTokens] at h
  | cons tok rest ih =>
    intro e h
    unfold correctTokens at h
    split at h
    · split at h
      · split at h
        · injection h with h1; exact h1.symm
        · split at h
          next e2 h2 => injection h with h1; exact h1 ▸ ih h2
          · simp at h
      · split at h
        next e2 h2 => injection h with h1; exact h1 ▸ ih h2
        · simp at h
    · split at h
      next e2 h2 => injection h with h1; exact h1 ▸ ih h2
      · simp at h

/-- If some alphabetic token of the list gets no suggestion from the
dictionary, the correction loop either raises the AttributeError or
produces a list containing a `None` entry. -/
theorem correctTokens_none_mem {corr : String → Option String} :
    ∀ {toks : List String} {tok : String}, tok ∈ toks → pyIsAlpha tok = true →
      corr (pyLower tok) = none →
      correctTokens corr toks = .error (.attributeError titleErrMsg) ∨
      ∃ cts, correctTokens corr toks = .ok cts ∧ none ∈ cts := by
  intro toks
  induction toks with
  | nil => intro tok h; simp at h
  | cons t rest ih =>
    intro tok hmem halpha hcorr
    rcases List.mem_cons.mp hmem with heq | hmem2
    · subst heq
      unfold correctTokens
      rw [if_pos halpha]
      by_cases hu : firstUpper tok = true
      · rw [if_pos hu, hcorr]
        exact Or.inl rfl
      · rw [if_neg hu]
        rcases hr : correctTokens corr rest with e | r
        · exact Or.inl (by rw [correctTokens_error_shape hr])
        · exact Or.inr ⟨corr (pyLower tok) :: r, rfl, by rw [hcorr]; exact List.mem_cons_self _ _⟩
    · have step := ih hmem2 halpha hcorr
      unfold correctTokens
      by_cases ha : pyIsAlpha t = true
      · rw [if_pos ha]
        by_cases hu : firstUpper t = true
        · rw [if_pos hu]
          rcases hc : corr (pyLower t) with _ | c
          · exact Or.inl rfl
          · rcases step with herr | ⟨cts, hok, hnone⟩
            · rw [herr]; exact Or.inl rfl
            · rw [hok]; exact Or.inr ⟨_, rfl, List.mem_cons_of_mem _ hnone⟩
        · rw [if_neg hu]
          rcases step with herr | ⟨cts, hok, hnone⟩
          · rw [herr]; exact Or.inl rfl
          · rw [hok]; exact Or.inr ⟨_, rfl, List.mem_cons_of_mem _ hnone⟩
      · rw [if_neg ha]
        rcases step with herr | ⟨cts, hok, hnone⟩
        · rw [herr]; exact Or.inl rfl
        · rw [hok]; exact Or.inr ⟨_, rfl, List.mem_cons_of_mem _ hnone⟩

/-- Joining a token list containing `None` raises the TypeError. -/
theorem pyJoin_none_mem {l : List (Option String)} (h : none ∈ l) :
    pyJoin l = .error (.typeError joinErrMsg) := by
  have hall : ¬ (l.all Option.isSome = true) := by
    simp only [List.all_eq_true]
    intro hall
    have := hall none h
    simp at this
  unfold pyJoin
  rw [if_neg hall]

/-- When the dictionary yields no suggestion for some alphabetic token of an
all-ASCII query, the normalisation stage raises (AttributeError from
`None.title()` or TypeError from the join). -/
theorem normalizeQuery_none_raises {corr : String → Option String} {q0 tok : String}
    (hascii : (q0.data.all fun c => c.toNat < 128) = true)
    (hmem : tok ∈ pyFindTokens q0) (halpha : pyIsAlpha tok = true)
    (hcorr : corr (pyLower tok) = none) :
    ∃ e, normalizeQuery (some corr) q0 = .error e ∧
      (e = .attributeError titleErrMsg ∨ e = .typeError joinErrMsg) := by
  simp only [normalizeQuery]
  rw [if_pos hascii]
  rcases correctTokens_none_mem hmem halpha hcorr with herr | ⟨cts, hok, hnone⟩
  · simp only [herr]; exact ⟨_, rfl, Or.inl rfl⟩
  · simp only [hok, pyJoin_none_mem hnone]; exact ⟨_, rfl, Or.inr rfl⟩

/-- A query with a token is not the empty string. -/
theorem pyFindTokens_ne_blank {q0 tok : String} (h : tok ∈ pyFindTokens q0) :
    q0 ≠ "" := by
  intro hq
  subst hq
  simp [pyFindTokens, findTokensGo] at h

/-! Claim theorems. -/

/-- Claim C1: for every request of the (spec-modelled) handler whose search
call succeeds and that produces a response, `response.results` is exactly
the provider list filtered by lexical overlap with the effective query
(`ca.keywords`): every surviving entry overlaps it, only results with no
lexical relationship are removed, the provider order is preserved, and
`response.count` equals the length of the filtered list. -/
theorem c1_filter_invariant (env : Env) (args : RequestArgs) (st : Nat)
    (resp : SearchResponse) (ca : SearchCallArgs) (rs : List SearchResult)
    (hok : (searchModelled env args).output = .okResp st resp)
    (hca : (searchModelled env args).capCalls = [ca])
    (hrs : env.searchCap ca = .ok rs) :
    resp.results = filterResultsByKeywords ca.keywords rs ∧
    resp.count = resp.results.length ∧
    (∀ r ∈ resp.results, lexOverlap ca.keywords r = true) ∧
    (∀ r ∈ rs, lexOverlap ca.keywords r = false → r ∉ resp.results) ∧
    List.Sublist resp.results rs := by
  have hok1 : (searchCore specFilterStep env args).output = .okResp st resp := hok
  have hca1 : (searchCore specFilterStep env args).capCalls = [ca] := hca
  obtain ⟨effQ, used, m0, hq, hn, hm, hm0, hss, heq⟩ := searchCore_ok_char hok1
  rw [heq, afterValidation_calls] at hca1
  have hcaeq : callArgsOf args effQ m0 = ca := by
    simpa using hca1
  rw [heq] at hok1
  obtain ⟨hst, rs2, fres, hcap2, hfilt, hresp⟩ := afterValidation_ok hok1
  rw [hcaeq] at hcap2 hfilt hresp
  rw [hrs] at hcap2
  injection hcap2 with hrs2
  subst hrs2
  simp only [specFilterStep] at hfilt
  injection hfilt with hf2
  subst hresp
  refine ⟨hf2.symm, rfl, ?_, ?_, ?_⟩
  · intro r hr
    rw [← hf2] at hr
    exact (List.mem_filter.mp hr).2
  · intro r hr hov hmem
    rw [← hf2] at hmem
    have := (List.mem_filter.mp hmem).2
    rw [hov] at this
    exact Bool.noConfusion this
  · rw [← hf2]
    exact List.filter_sublist _

/-- Witness for C1 at a concrete run: query "cats" over a provider returning
one lexically related and one unrelated result. -/
theorem c1_filter_invariant_witness :
    respCats.results = filterResultsByKeywords caCats.keywords [resCats, resDogs] ∧
    respCats.count = respCats.results.length ∧
    (∀ r ∈ respCats.results, lexOverlap caCats.keywords r = true) ∧
    (∀ r ∈ [resCats, resDogs], lexOverlap caCats.keywords r = false →
      r ∉ respCats.results) ∧
    List.Sublist respCats.results [resCats, resDogs] :=
  c1_filter_invariant envTwoRes argsCats 200 respCats caCats [resCats, resDogs]
    (by decide) (by decide) rfl

/-- Claim C2: the module calls `_filter_results_by_keywords`, a name it
never defines; for every request that passes validation and whose search
capability returns without raising, the handler raises that NameError, and
no 200 response is ever produced by the handler as it stands. -/
theorem c2_undefined_filter :
    (∀ env args effQ used m0,
      (args : RequestArgs).q.getD "" ≠ "" →
      normalizeQuery (env : Env).spell (args.q.getD "") = .ok (effQ, used) →
      parseMaxResults args.max_results = some m0 → ¬ m0 ≤ 0 →
      ssValid (ssOf args) = true →
      (∀ ca, ∃ rs, env.searchCap ca = .ok rs) →
      (searchActual env args).output =
        .raised (.nameError "_filter_results_by_keywords")) ∧
    (∀ env args st resp, (searchActual env args).output ≠ .okResp st resp) := by
  constructor
  · intro env args effQ used m0 hq hn hm hm0 hss hcap
    show (searchCore missingFilterStep env args).output = _
    rw [searchCore_valid_eq hq hn hm hm0 hss]
    obtain ⟨rs, hrs⟩ := hcap (callArgsOf args effQ m0)
    unfold afterValidation
    simp [hrs, missingFilterStep]
  · intro env args st resp h
    have h1 : (searchCore missingFilterStep env args).output = .okResp st resp := h
    obtain ⟨effQ, used, m0, hq, hn, hm, hm0, hss, heq⟩ := searchCore_ok_char h1
    rw [heq] at h1
    obtain ⟨hst, rs, fres, hcap, hfilt, hresp⟩ := afterValidation_ok h1
    simp [missingFilterStep] at hfilt

/-- Witness for C2 at a concrete run: a valid request over a capability
returning the empty list. -/
theorem c2_undefined_filter_witness :
    (searchActual envEmptyCap argsCats).output =
      .raised (.nameError "_filter_results_by_keywords") :=
  c2_undefined_filter.1 envEmptyCap argsCats "cats" false 5 (by decide) rfl rfl
    (by decide) (by decide) (fun _ => ⟨[], rfl⟩)

/-- Counterexample to claim C3: in the claimed scenario (effective query
"how many tigers are there", a result whose snippet mentions "5,574
tigers", encyclopedia yielding no page) the answer field is NOT the string
"The estimated tigers population is around 5,574.": the fallback population
heuristic requires the substring "population" in the query and a number
followed by million/billion in the snippet, and neither holds. -/
theorem c3_population_counterexample :
    answerOfRun (searchModelled envC3 argsC3) ≠
      some "The estimated tigers population is around 5,574." := by decide

/-- Claim C3 as amended: in that same scenario the handler returns a 200
response whose answer field is absent. -/
theorem c3_population_amended :
    (searchModelled envC3 argsC3).output = .okResp 200 respC3 := by decide

/-- Claim C4: whatever filter step is plugged in, every 200 response echoes
the literal `q` parameter in its query field, regardless of any internal
correction. -/
theorem c4_query_roundtrip (filt : FilterStep) (env : Env) (args : RequestArgs)
    (st : Nat) (resp : SearchResponse)
    (h : (searchCore filt env args).output = .okResp st resp) :
    args.q = some resp.query := by
  obtain ⟨effQ, used, m0, hq, hn, hm, hm0, hss, heq⟩ := searchCore_ok_char h
  rw [heq] at h
  obtain ⟨hst, rs, fres, hcap, hfilt, hresp⟩ := afterValidation_ok h
  have hquery : resp.query = args.q.getD "" := by rw [hresp]
  rw [hquery]
  cases hargs : args.q with
  | none => rw [hargs] at hq; exact absurd rfl hq
  | some s => rfl

/-- Witness for C4 at a concrete run. -/
theorem c4_query_roundtrip_witness : argsCats.q = some respCats.query :=
  c4_query_roundtrip specFilterStep envTwoRes argsCats 200 respCats (by decide)

/-- Counterexample to claim C5: a request with non-numeric `max_results`
("abc") does not always yield a 400 response — with an available dictionary
that returns no suggestion, the spell-check stage (which the module runs
before `max_results` validation) raises first, so the handler raises a
TypeError instead of returning 400. -/
theorem c5_validation_counterexample :
    statusOf (searchActual envNoSuggestion argsC5).output ≠ some 400 ∧
    (searchActual envNoSuggestion argsC5).output = .raised (.typeError joinErrMsg) :=
  ⟨by decide, by decide⟩

/-- Claim C5 as amended: a missing or empty `q` always yields 400 with the
error message and no search call; and when the spell-check stage completes
without raising, an invalid `max_results` (non-numeric or non-positive) or
an invalid `safesearch` yields 400 with the error message and no search
call. -/
theorem c5_validation_amended :
    (∀ filt env args, (args : RequestArgs).q.getD "" = "" →
      (searchCore filt env args).output = .errorResp 400 eMissingQ ∧
      (searchCore filt env args).capCalls = []) ∧
    (∀ filt env args effQ used, (args : RequestArgs).q.getD "" ≠ "" →
      normalizeQuery (env : Env).spell (args.q.getD "") = .ok (effQ, used) →
      parseMaxResults args.max_results = none →
      (searchCore filt env args).output = .errorResp 400 eMaxResults ∧
      (searchCore filt env args).capCalls = []) ∧
    (∀ filt env args effQ used m0, (args : RequestArgs).q.getD "" ≠ "" →
      normalizeQuery (env : Env).spell (args.q.getD "") = .ok (effQ, used) →
      parseMaxResults args.max_results = some m0 → m0 ≤ 0 →
      (searchCore filt env args).output = .errorResp 400 eMaxResults ∧
      (searchCore filt env args).capCalls = []) ∧
    (∀ filt env args effQ used m0, (args : RequestArgs).q.getD "" ≠ "" →
      normalizeQuery (env : Env).spell (args.q.getD "") = .ok (effQ, used) →
      parseMaxResults args.max_results = some m0 → ¬ m0 ≤ 0 →
      ssValid (ssOf args) = false →
      (searchCore filt env args).output = .errorResp 400 eSafesearch ∧
      (searchCore filt env args).capCalls = []) := by
  refine ⟨?_, ?_, ?_, ?_⟩
  · intro filt env args hq
    unfold searchCore
    rw [if_pos hq]
    exact ⟨rfl, rfl⟩
  · intro filt env args effQ used hq hn hm
    unfold searchCore
    simp [hq, hn, hm]
  · intro filt env args effQ used m0 hq hn hm hm0
    unfold searchCore
    simp [hq, hn, hm, hm0]
  · intro filt env args effQ used m0 hq hn hm hm0 hss
    unfold searchCore
    simp [hq, hn, hm, hm0, hss]

/-- Witness for the amended C5 at a concrete request with `q` missing. -/
theorem c5_validation_amended_witness :
    (searchCore specFilterStep envEmptyCap ⟨none, none, none, none, none⟩).output =
      .errorResp 400 eMissingQ ∧
    (searchCore specFilterStep envEmptyCap ⟨none, none, none, none, none⟩).capCalls = [] :=
  c5_validation_amended.1 specFilterStep envEmptyCap ⟨none, none, none, none, none⟩ rfl

/-- Claim C6: for every request that passes validation (hence whose
spell-check stage completed), if the search capability raises then the
handler returns 500 with the underlying message, does not crash, and calls
the capability exactly once (no retry). -/
theorem c6_search_failure (filt : FilterStep) (env : Env) (args : RequestArgs)
    (effQ : String) (used : Bool) (m0 : Int) (msg : String)
    (hq : args.q.getD "" ≠ "")
    (hn : normalizeQuery env.spell (args.q.getD "") = .ok (effQ, used))
    (hm : parseMaxResults args.max_results = some m0) (hm0 : ¬ m0 ≤ 0)
    (hss : ssValid (ssOf args) = true)
    (hcap : ∀ ca, env.searchCap ca = .error msg) :
    (searchCore filt env args).output = .errorResp 500 ("Search failed: " ++ msg) ∧
    (searchCore filt env args).capCalls.length = 1 := by
  rw [searchCore_valid_eq hq hn hm hm0 hss]
  constructor
  · unfold afterValidation
    simp [hcap]
  · rw [afterValidation_calls]
    rfl

/-- Witness for C6 at a concrete run over a failing capability. -/
theorem c6_search_failure_witness :
    (searchCore specFilterStep envFailCap argsCats).output =
      .errorResp 500 ("Search failed: " ++ "boom") ∧
    (searchCore specFilterStep envFailCap argsCats).capCalls.length = 1 :=
  c6_search_failure specFilterStep envFailCap argsCats "cats" false 5 "boom"
    (by decide) rfl rfl (by decide) (by decide) (fun _ => rfl)

/-- Claim C7: when the search capability returns the empty sequence, the
(spec-modelled) handler returns 200 with count 0, empty results, the
message present and no answer field. -/
theorem c7_zero_results (env : Env) (args : RequestArgs)
    (effQ : String) (used : Bool) (m0 : Int)
    (hq : args.q.getD "" ≠ "")
    (hn : normalizeQuery env.spell (args.q.getD "") = .ok (effQ, used))
    (hm : parseMaxResults args.max_results = some m0) (hm0 : ¬ m0 ≤ 0)
    (hss : ssValid (ssOf args) = true)
    (hcap : ∀ ca, env.searchCap ca = .ok []) :
    (searchModelled env args).output = .okResp 200
      ⟨args.q.getD "", 0, [], (if used then some effQ else none),
        some msgNoResults, none⟩ := by
  show (searchCore specFilterStep env args).output = _
  rw [searchCore_valid_eq hq hn hm hm0 hss]
  unfold afterValidation
  simp [hcap, specFilterStep, filterResultsByKeywords, callArgsOf]

/-- Witness for C7 at a concrete run over an empty-returning capability. -/
theorem c7_zero_results_witness :
    (searchModelled envEmptyCap argsCats).output = .okResp 200
      ⟨"cats", 0, [], none, some msgNoResults, none⟩ :=
  c7_zero_results envEmptyCap argsCats "cats" false 5 (by decide) rfl rfl
    (by decide) (by decide) (fun _ => rfl)

/-- Claim C8: in the spelling-correction scenario ("pyhton programming"
corrected via the dictionary), the response carries
spellchecked_query = "python programming" while query still echoes
"pyhton programming"; in general the spellchecked_query field is present
with the effective query exactly when correction was adopted, which happens
exactly when the rejoined corrected string differs case-insensitively from
the original. -/
theorem c8_spellcheck :
    ((searchModelled envC8 argsC8).output = .okResp 200 respC8) ∧
    (∀ env args effQ used st resp,
      normalizeQuery (env : Env).spell ((args : RequestArgs).q.getD "") = .ok (effQ, used) →
      (searchModelled env args).output = .okResp st resp →
      resp.spellchecked_query = (if used then some effQ else none)) ∧
    (∀ corr q0 cts corrected,
      ((q0 : String).data.all fun c => c.toNat < 128) = true →
      correctTokens corr (pyFindTokens q0) = .ok cts →
      pyJoin cts = .ok corrected →
      normalizeQuery (some corr) q0 =
        (if pyLower corrected == pyLower q0 then .ok (q0, false)
         else .ok (corrected, true))) := by
  refine ⟨by decide, ?_, ?_⟩
  · intro env args effQ used st resp hn hok
    have hok1 : (searchCore specFilterStep env args).output = .okResp st resp := hok
    obtain ⟨effQ2, used2, m02, hq, hn2, hm, hm0, hss, heq⟩ := searchCore_ok_char hok1
    rw [hn] at hn2
    injection hn2 with hp
    injection hp with he hu
    subst he
    subst hu
    rw [heq] at hok1
    obtain ⟨hst, rs, fres, hcap, hfilt, hresp⟩ := afterValidation_ok hok1
    rw [hresp]
    simp [callArgsOf]
  · intro corr q0 cts corrected hascii hct hj
    simp only [normalizeQuery]
    rw [if_pos hascii]
    simp only [hct, hj]

/-- Witness for C8: the general normalisation equation applied to the
scenario dictionary and query. -/
theorem c8_spellcheck_witness :
    normalizeQuery (some corrC8) "pyhton programming" =
      (if pyLower "python programming" == pyLower "pyhton programming"
       then .ok ("pyhton programming", false)
       else .ok ("python programming", true)) :=
  c8_spellcheck.2.2 corrC8 "pyhton programming"
    [some "python", some "programming"] "python programming" (by decide) rfl rfl

/-- Claim C9: the population override — if the effective query contains
"population" (case-insensitively) the resolved `max_results` is `max m 20`,
hence at least 20 and at least the parsed user value; otherwise the parsed
user (or default) value is used unchanged; and every call the handler makes
carries exactly the override applied to the parsed value. -/
theorem c9_population_override :
    (∀ q m, containsSub (pyLower q) "population" = true →
      resolveMaxResults q m = max m 20 ∧ 20 ≤ resolveMaxResults q m ∧
        m ≤ resolveMaxResults q m) ∧
    (∀ q m, containsSub (pyLower q) "population" = false →
      resolveMaxResults q m = m) ∧
    (∀ filt env args ca, ca ∈ (searchCore filt env args).capCalls →
      ∃ m0, parseMaxResults (args : RequestArgs).max_results = some m0 ∧ 0 < m0 ∧
        ca.max_results = resolveMaxResults ca.keywords m0) := by
  refine ⟨?_, ?_, ?_⟩
  · intro q m hc
    unfold resolveMaxResults
    rw [if_pos hc]
    exact ⟨rfl, le_max_right m 20, le_max_left m 20⟩
  · intro q m hc
    unfold resolveMaxResults
    rw [if_neg (by simp [hc])]
  · intro filt env args ca h
    obtain ⟨effQ, used, m0, hn, hm, hm0, hca⟩ := searchCore_calls_char h
    refine ⟨m0, hm, by omega, ?_⟩
    rw [hca]
    rfl

/-- Witness for C9 on a concrete population query. -/
theorem c9_population_override_witness :
    resolveMaxResults "world population" 5 = max 5 20 ∧
    20 ≤ resolveMaxResults "world population" 5 ∧
    (5 : Int) ≤ resolveMaxResults "world population" 5 :=
  c9_population_override.1 "world population" 5 (by decide)

/-- Claim C10: when the dictionary is available but yields no suggestion
for some alphabetic token of an all-ASCII query, the handler raises an
unhandled exception while building the corrected query (the AttributeError
from `None.title()` or the TypeError from joining `None`) instead of
passing the token through unchanged. -/
theorem c10_spellcheck_none_raises (filt : FilterStep) (env : Env)
    (args : RequestArgs) (corr : String → Option String) (q0 tok : String)
    (hsp : env.spell = some corr) (hq : args.q = some q0)
    (hascii : (q0.data.all fun c => c.toNat < 128) = true)
    (hmem : tok ∈ pyFindTokens q0) (halpha : pyIsAlpha tok = true)
    (hcorr : corr (pyLower tok) = none) :
    ∃ e, (searchCore filt env args).output = .raised e ∧
      (e = .attributeError titleErrMsg ∨ e = .typeError joinErrMsg) := by
  obtain ⟨e, hne, hshape⟩ :=
    @normalizeQuery_none_raises corr q0 tok hascii hmem halpha hcorr
  refine ⟨e, ?_, hshape⟩
  have hq0 : args.q.getD "" = q0 := by rw [hq]; rfl
  have hqne : q0 ≠ "" := pyFindTokens_ne_blank hmem
  unfold searchCore
  rw [hq0, if_neg hqne, hsp, hne]

/-- Witness for C10 at a concrete none-returning dictionary. -/
theorem c10_spellcheck_none_raises_witness :
    ∃ e, (searchCore missingFilterStep envNoSuggestion argsCats).output = .raised e ∧
      (e = .attributeError titleErrMsg ∨ e = .typeError joinErrMsg) :=
  c10_spellcheck_none_raises missingFilterStep envNoSuggestion argsCats corrNone
    "cats" "cats" rfl rfl (by decide) (by decide) (by decide) rfl

end GooBlox
